import Mathlib

/-
Verification of the quiz-session, broadcast-scheduler, subscription-registry and
audio-artifact behaviour of an English-tutor Telegram bot.

The embedding is shallow: Python strings are `List Char` with the relevant string
primitives (`split('\n')`, `strip()`, `lower()`, `replace`) re-implemented as
structurally recursive Lean functions; the mutable bot state (`bot_data`,
per-user `user_data`, temporary audio files on disk) is an explicit record; the
fallible external calls (speech synthesis, file read, transport sends, file
removal) are driven by an injected fault assignment, and `try/except` blocks
become the corresponding branch structure.  The broadcast tick is embedded as
the source executes it: its generation call is missing an `await`, so every
loop iteration raises before reaching any external call.
-/

namespace EngBot

/-! ### Python string primitives, modelled on `List Char` -/

abbrev Str := List Char

/-- ASCII whitespace as recognised by Python `str.strip()`. -/
def isPyWhitespace (c : Char) : Bool :=
  c = ' ' || c = '\t' || c = '\n' || c = '\r' || c = '\x0b' || c = '\x0c'

def dropLeadingWs : Str → Str
  | [] => []
  | c :: rest => if isPyWhitespace c then dropLeadingWs rest else c :: rest

/-- Python `s.strip()`: remove leading and trailing whitespace. -/
def pyStrip (s : Str) : Str :=
  dropLeadingWs (dropLeadingWs s.reverse).reverse

/-- Python `s.lower()` (ASCII case folding, which is all the code relies on). -/
def pyLower (s : Str) : Str := s.map Char.toLower

/-- The answer normalization used by `check_answer`: `text.strip().lower()`. -/
def pyNormalize (s : Str) : Str := pyLower (pyStrip s)

/-- Python `s.split('\n')`: split on every newline, keeping empty fields, so the
result always has one more element than the number of newlines. -/
def splitNewlines : Str → List Str
  | [] => [[]]
  | c :: rest =>
      let r := splitNewlines rest
      if c = '\n' then [] :: r
      else (c :: r.headD []) :: r.tail

def listStartsWith : Str → Str → Bool
  | [], _ => true
  | _ :: _, [] => false
  | p :: ps, x :: xs => p = x && listStartsWith ps xs

def pyReplaceFuel (old new : Str) : Nat → Str → Str
  | 0, l => l
  | _ + 1, [] => []
  | fuel + 1, x :: xs =>
      if listStartsWith old (x :: xs) then
        new ++ pyReplaceFuel old new fuel ((x :: xs).drop old.length)
      else
        x :: pyReplaceFuel old new fuel xs

/-- Python `s.replace(old, new)`: replace every non-overlapping occurrence,
scanning left to right.  The parser only ever calls it with non-empty `old`
(the fixed label literals), so the empty-pattern case is left as the identity. -/
def pyReplace (old new l : Str) : Str :=
  if old.isEmpty then l else pyReplaceFuel old new l.length l

/-! ### Data model -/

/-- The quiz dictionary built by `generate_quiz_question`:
`{'english_sentence': ..., 'correct_translation': ..., 'options': ...}`. -/
structure QuizData where
  english_sentence : Str
  correct_translation : Str
  options : List Str
deriving DecidableEq

/-! ### Quiz-question parsing -/

/-- `OpenAIEngine.generate_quiz_question` from `src/open_ai/openai_engine.py`
(lines 76-104), with the backend completion text `content` as input and
`random.shuffle` abstracted as the `shuffle` parameter.  The code splits on
newlines, returns `None` when fewer than five fields result, otherwise strips
the fixed labels off the first five lines (`lines[0]`, `lines[1]`,
`lines[2:5]`; indices are in range because the length guard passed) and
shuffles the four options. -/
def generate_quiz_question (shuffle : List Str → List Str) (content : Str) :
    Option QuizData :=
  let lines := splitNewlines content
  if lines.length < 5 then none
  else
    let english_sentence := pyStrip (pyReplace "English: ".data [] (lines.getD 0 []))
    let correct_translation :=
      pyStrip (pyReplace "Correct Translation: ".data [] (lines.getD 1 []))
    let incorrect_translations :=
      ((lines.drop 2).take 3).map
        (fun l => pyStrip (pyReplace "Incorrect Translation: ".data [] l))
    some { english_sentence := english_sentence
           correct_translation := correct_translation
           options := shuffle (correct_translation :: incorrect_translations) }

/-- `OpenAIEngine.generate_quiz_question` from `src/open_ai/openai_init.py`
(lines 72-105), the snapshot whose labels are `English:` / `Correct
Ukrainian:` / `Incorrect Ukrainian:`.  The whole completion is stripped, then
split on newlines; an `IndexError` from `lines[1]` on fewer than two lines is
caught by the surrounding handler, which returns the literal error dictionary. -/
def generate_quiz_question_init (shuffle : List Str → List Str) (content : Str) :
    QuizData :=
  match splitNewlines (pyStrip content) with
  | l0 :: l1 :: rest =>
      let correct_translation := pyReplace "Correct Ukrainian: ".data [] l1
      { english_sentence := pyReplace "English: ".data [] l0
        correct_translation := correct_translation
        options := shuffle (correct_translation ::
          (rest.take 3).map (fun l => pyReplace "Incorrect Ukrainian: ".data [] l)) }
  | _ =>
      { english_sentence := "Error".data
        correct_translation := "Error".data
        options := ["Error".data] }

/-- Spec-side notion used by the parser-failure claim: the number of non-empty
("usable") lines of the raw text. -/
def nonEmptyLineCount (content : Str) : Nat :=
  ((splitNewlines content).filter (fun l => !l.isEmpty)).length

/-! ### Subscription registry (`subscribe_quiz` / `unsubscribe_quiz`) -/

inductive SubscribeOutcome where
  | newlySubscribed : SubscribeOutcome
  | alreadySubscribed : SubscribeOutcome
deriving DecidableEq

inductive UnsubscribeOutcome where
  | wasSubscribed : UnsubscribeOutcome
  | notSubscribed : UnsubscribeOutcome
deriving DecidableEq

/-- `TelegramBot.subscribe_quiz` (bot.py lines 367-390): append the chat id to
`bot_data['subscribed_users']` unless it is already present. -/
def subscribe_quiz (chat_id : Nat) (subscribed_users : List Nat) :
    SubscribeOutcome × List Nat :=
  if chat_id ∈ subscribed_users then (.alreadySubscribed, subscribed_users)
  else (.newlySubscribed, subscribed_users ++ [chat_id])

/-- `TelegramBot.unsubscribe_quiz` (bot.py lines 392-415): `list.remove` drops
the first occurrence when present, otherwise the registry is left unchanged and
the not-subscribed message is sent. -/
def unsubscribe_quiz (chat_id : Nat) (subscribed_users : List Nat) :
    UnsubscribeOutcome × List Nat :=
  if chat_id ∈ subscribed_users then (.wasSubscribed, subscribed_users.erase chat_id)
  else (.notSubscribed, subscribed_users)

/-! ### Bot state, answer resolution, and the broadcast tick -/

/-- Outcome of a text answer reaching `check_answer`: either the no-quiz-data
branch, or a resolution reporting the match flag together with the stored
correct translation and the English prompt sentence. -/
inductive AnswerOutcome where
  | noSession : AnswerOutcome
  | answered (matched : Bool) (correct_translation : Str) (english_sentence : Str) :
      AnswerOutcome
deriving DecidableEq

/-- Messages the embedded handlers can hand to the transport. -/
inductive SentMsg where
  | textOut : SentMsg
  | voiceOut : SentMsg
  | apology : SentMsg
deriving DecidableEq

/-- Logger events of the broadcast tick: the per-recipient
"Sending scheduled quiz to ..." info line (bot.py line 331) and the
"Error sending scheduled quiz to ..." line of the per-recipient exception
handler (bot.py line 362). -/
inductive LogKind where
  | quizAttempt : LogKind
  | errorCaught : LogKind
deriving DecidableEq

/-- The mutable state the verified subsystems touch: temporary audio files on
disk (by id, with a fresh-id counter), `bot_data['scheduled_quizzes']`,
the per-user `user_data['quiz_data']`, `bot_data['subscribed_users']`, the
messages handed to the transport, and the tick's log lines. -/
structure BotState where
  artifacts : List Nat
  nextId : Nat
  scheduledQuizzes : Nat → Option QuizData
  userQuizData : Nat → Option QuizData
  subscribedUsers : List Nat
  messages : List (Nat × SentMsg)
  logs : List (Nat × LogKind)

/-- Pointwise update of a chat-indexed store (Python dict assignment / pop). -/
def setQuiz (f : Nat → Option QuizData) (chat_id : Nat) (v : Option QuizData) :
    Nat → Option QuizData :=
  fun x => if x = chat_id then v else f x

/-- The session-opening write of the broadcast tick (bot.py line 359):
`bot_data.setdefault('scheduled_quizzes', {})[chat_id] = quiz_data`. -/
def open_scheduled (chat_id : Nat) (quiz_data : QuizData) (s : BotState) : BotState :=
  { s with scheduledQuizzes := setQuiz s.scheduledQuizzes chat_id (some quiz_data) }

/-- `TelegramBot.check_answer` (bot.py lines 707-747).  It reads only the
per-user `user_data['quiz_data']`: with no entry it sends the "couldn't
retrieve the quiz data" message and ends; with an entry it compares the
stripped, lower-cased answer against the stripped, lower-cased stored
`correct_translation`, reports the result together with the raw correct
translation and the English sentence, and unconditionally pops the entry. -/
def check_answer (chat_id : Nat) (text : Str) (s : BotState) :
    AnswerOutcome × BotState :=
  match s.userQuizData chat_id with
  | none => (.noSession, s)
  | some quiz_data =>
      (.answered (pyNormalize text == pyNormalize quiz_data.correct_translation)
          quiz_data.correct_translation quiz_data.english_sentence,
        { s with userQuizData := setQuiz s.userQuizData chat_id none })

/-- The environment one broadcast tick could consult: the completion text the
backend would return per chat, the shuffle the parser would use, and per-chat
success of speech synthesis, the artifact read, the voice send, `os.remove`,
the follow-up prompt send, and the apology send.  As the source executes
(see `process_chat`), none of these calls is ever reached, so the tick's
outcome is provably independent of this whole record; it is kept so that the
tick's properties quantify over every environment. -/
structure TickFaults where
  genContent : Nat → Str
  shuffle : List Str → List Str
  ttsOk : Nat → Bool
  readOk : Nat → Bool
  sendVoiceOk : Nat → Bool
  removeOk : Nat → Bool
  promptOk : Nat → Bool
  apologyOk : Nat → Bool

/-- The per-recipient log entries one tick appends: for each chat in order,
the attempt line and the caught-error line. -/
def tickLogs : List Nat → List (Nat × LogKind)
  | [] => []
  | c :: cs => (c, .quizAttempt) :: (c, .errorCaught) :: tickLogs cs

/-- One iteration of the `for chat_id in subscribed_users` loop of
`TelegramBot.scheduled_quiz` (bot.py lines 329-362), as the source actually
executes it.  Line 332 calls the `async def` `OpenAIEngine.generate_quiz_question`
(openai_engine.py line 76) without `await`, so `quiz_data` is a coroutine
object: it is truthy, which makes the `if not quiz_data` apology branch at
lines 334-339 dead, and evaluating `quiz_data['english_sentence']` at line 341
raises `TypeError` before `convert_text_to_speech` is called.  The
per-recipient `except` (lines 361-362) catches and logs it.  Each iteration
therefore logs the attempt (line 331) and the caught error, and leaves
everything else — disk artifacts, both quiz stores, the subscriber list, and
the transport — untouched; no stage of the environment is ever consulted. -/
def process_chat (_f : TickFaults) (s : BotState) (chat_id : Nat) : BotState :=
  { s with logs := s.logs ++ [(chat_id, .quizAttempt), (chat_id, .errorCaught)] }

/-- `TelegramBot.scheduled_quiz` (bot.py lines 320-365): one timer tick,
iterating the recipient loop over the subscribed users. -/
def scheduled_quiz (f : TickFaults) (s : BotState) : BotState :=
  s.subscribedUsers.foldl (process_chat f) s

/-- Fault assignment for one `send_text_and_voice_response` invocation:
success of the initial text send, of speech synthesis, of the artifact read,
of the voice send, of `os.remove`, and of the apology send in the handler. -/
structure SendVoiceFaults where
  sendTextOk : Bool
  ttsOk : Bool
  readOk : Bool
  sendVoiceOk : Bool
  removeOk : Bool
  apologyOk : Bool

/-- `TelegramBot.send_text_and_voice_response` (bot.py lines 243-267), the
encode path used by `/meaning` (bot.py line 535): inside a single
`try/except`, send the text, synthesize it to a fresh MP3 artifact, read it
back, send the voice message, and only then `os.remove` the artifact.  The
`except` logs and sends the apology (if the apology send itself fails, the
exception propagates with the same state, minus the apology message).  There
is no `finally`: any failure after the artifact is created and before the
remove completes leaves the artifact on disk. -/
def send_text_and_voice_response (f : SendVoiceFaults) (chat_id : Nat)
    (s : BotState) : BotState :=
  let fail := fun (st : BotState) =>
    if f.apologyOk then { st with messages := st.messages ++ [(chat_id, .apology)] }
    else st
  if f.sendTextOk then
    let s0 := { s with messages := s.messages ++ [(chat_id, .textOut)] }
    if f.ttsOk then
      let audio := s0.nextId
      let s1 := { s0 with artifacts := s0.artifacts ++ [audio], nextId := s0.nextId + 1 }
      if f.readOk then
        if f.sendVoiceOk then
          let s2 := { s1 with messages := s1.messages ++ [(chat_id, .voiceOut)] }
          if f.removeOk then { s2 with artifacts := s2.artifacts.erase audio }
          else fail s2
        else fail s1
      else fail s1
    else fail s0
  else fail s

/-! ### Concrete instances used by witnesses and counterexamples -/

/-- A well-formed five-line completion in the engine parser's label format. -/
def goodContent : Str :=
  ("English: Hello there\nCorrect Translation: Pryvit\nIncorrect Translation: A1\n" ++
    "Incorrect Translation: B2\nIncorrect Translation: C3").data

/-- A clean start state with a single subscribed recipient. -/
def tickStart : BotState :=
  { artifacts := [], nextId := 0, scheduledQuizzes := fun _ => none
    userQuizData := fun _ => none, subscribedUsers := [7], messages := []
    logs := [] }

/-- A tick start state with two subscribed recipients. -/
def twoUserState : BotState :=
  { artifacts := [], nextId := 0, scheduledQuizzes := fun _ => none
    userQuizData := fun _ => none, subscribedUsers := [1, 2], messages := []
    logs := [] }

/-- `send_text_and_voice_response` faults: every stage succeeds except the
voice send. -/
def sendFailFaults : SendVoiceFaults :=
  { sendTextOk := true, ttsOk := true, readOk := true, sendVoiceOk := false
    removeOk := true, apologyOk := true }

/-- `send_text_and_voice_response` faults: every stage succeeds and only the
final `os.remove` fails. -/
def removeFailSendFaults : SendVoiceFaults :=
  { sendTextOk := true, ttsOk := true, readOk := true, sendVoiceOk := true
    removeOk := false, apologyOk := true }

/-- A tick environment in which only recipient 1's voice send would fail. -/
def mixedFaults : TickFaults :=
  { genContent := fun _ => goodContent, shuffle := id
    ttsOk := fun _ => true, readOk := fun _ => true
    sendVoiceOk := fun c => !(c == 1)
    removeOk := fun _ => true, promptOk := fun _ => true, apologyOk := fun _ => true }

/-- A tick environment whose completion text has too few lines to parse. -/
def shortFaults : TickFaults :=
  { genContent := fun _ => "a\nb".data, shuffle := id
    ttsOk := fun _ => true, readOk := fun _ => true, sendVoiceOk := fun _ => true
    removeOk := fun _ => true, promptOk := fun _ => true, apologyOk := fun _ => true }

/-- Raw text with five raw lines but a single non-empty one. -/
def shortUsable : Str := "English: X\n\n\n\n".data

/-- The exact schematic input of the parser-correctness claim. -/
def c4Input : Str :=
  ("English: X\nCorrect Ukrainian: Y\nIncorrect Ukrainian: A\n" ++
    "Incorrect Ukrainian: B\nIncorrect Ukrainian: C").data

/-- A stored quiz whose correct translation is `"Paris"`. -/
def parisQuiz : QuizData :=
  { english_sentence := "Where is it".data
    correct_translation := "Paris".data
    options := [] }

/-- A state in which only chat 7 has pending per-user quiz data. -/
def stateWithParis : BotState :=
  { artifacts := [], nextId := 0, scheduledQuizzes := fun _ => none
    userQuizData := fun c => if c = 7 then some parisQuiz else none
    subscribedUsers := [], messages := [], logs := [] }

/-- First quiz opened in the session-overwrite scenario. -/
def quizQ1 : QuizData :=
  { english_sentence := "E one".data, correct_translation := "alpha".data, options := [] }

/-- Second quiz opened in the session-overwrite scenario. -/
def quizQ2 : QuizData :=
  { english_sentence := "E two".data, correct_translation := "beta".data, options := [] }

/-! ### Helper lemmas about the broadcast tick -/

/-- Exact characterization of one tick: it appends the per-recipient
attempt/caught-error log lines, in subscriber order, and changes nothing
else — whatever the environment `f` would have answered. -/
theorem scheduled_quiz_eq (f : TickFaults) (s : BotState) :
    scheduled_quiz f s = { s with logs := s.logs ++ tickLogs s.subscribedUsers } := by
  unfold scheduled_quiz
  have h : ∀ (l : List Nat) (st : BotState),
      l.foldl (process_chat f) st = { st with logs := st.logs ++ tickLogs l } := by
    intro l
    induction l with
    | nil => intro st; simp [tickLogs]
    | cons c cs ih =>
        intro st
        rw [List.foldl_cons, ih]
        simp [process_chat, tickLogs, List.append_assoc]
  exact h s.subscribedUsers s

/-- Every member of the recipient list gets both of its log lines. -/
theorem mem_tickLogs (r : Nat) (k : LogKind) :
    ∀ l : List Nat, r ∈ l → (r, k) ∈ tickLogs l := by
  intro l
  induction l with
  | nil => intro h; cases h
  | cons c cs ih =>
      intro h
      simp only [tickLogs, List.mem_cons]
      rcases List.mem_cons.mp h with h1 | h2
      · subst h1
        cases k
        · exact Or.inl rfl
        · exact Or.inr (Or.inl rfl)
      · exact Or.inr (Or.inr (ih h2))

/-! ### Claim theorems -/

/-- C1: the claim asserts artifact-count preservation for every decode/encode
invocation, but the encode path of `send_text_and_voice_response` (reachable
via `/meaning`, bot.py line 535) deletes the synthesized MP3 only after a
successful voice send — the `os.remove` at bot.py line 261 sits inside the
`try` with no `finally` — so when the voice send fails, an invocation that
started with zero temporary artifacts ends with one, the apology marking the
caught failure.  The broadcast tick itself can never leak: its unawaited
generation call raises `TypeError` before synthesis, so a tick creates no
artifacts at all, in any environment. -/
theorem send_text_and_voice_send_failure_leaks_artifact :
    tickStart.artifacts.length = 0 ∧
    (send_text_and_voice_response sendFailFaults 7 tickStart).artifacts.length = 1 ∧
    (7, SentMsg.apology) ∈ (send_text_and_voice_response sendFailFaults 7 tickStart).messages ∧
    (∀ (f : TickFaults) (s : BotState), (scheduled_quiz f s).artifacts = s.artifacts) := by
  refine ⟨rfl, by decide, by decide, ?_⟩
  intro f s
  rw [scheduled_quiz_eq]

/-- C2: per-recipient isolation of the broadcast tick, for the failures the
tick actually exhibits.  Because of the missing `await` at bot.py line 332,
every recipient's loop body raises `TypeError` at line 341; the per-recipient
`except` catches and logs that failure rather than letting it abort the tick,
so every subscribed recipient — in particular every recipient after a failing
one — is still reached and processed: each gets its attempt line and its
caught-error line in the log.  Moreover the tick's outcome is identical under
every environment: no recipient's generation, parsing, synthesis, or
transport behaviour can influence the processing of any other (the failure
occurs before any such call is made). -/
theorem scheduled_quiz_per_recipient_isolation
    (f : TickFaults) (s : BotState) (r : Nat)
    (hmem : r ∈ s.subscribedUsers) :
    (r, LogKind.quizAttempt) ∈ (scheduled_quiz f s).logs ∧
    (r, LogKind.errorCaught) ∈ (scheduled_quiz f s).logs ∧
    (∀ g : TickFaults, scheduled_quiz g s = scheduled_quiz f s) := by
  refine ⟨?_, ?_, ?_⟩
  · rw [scheduled_quiz_eq]
    exact List.mem_append_right _ (mem_tickLogs r LogKind.quizAttempt s.subscribedUsers hmem)
  · rw [scheduled_quiz_eq]
    exact List.mem_append_right _ (mem_tickLogs r LogKind.errorCaught s.subscribedUsers hmem)
  · intro g
    rw [scheduled_quiz_eq, scheduled_quiz_eq]

theorem scheduled_quiz_per_recipient_isolation_witness :
    (2, LogKind.quizAttempt) ∈ (scheduled_quiz mixedFaults twoUserState).logs ∧
    (2, LogKind.errorCaught) ∈ (scheduled_quiz mixedFaults twoUserState).logs :=
  ⟨(scheduled_quiz_per_recipient_isolation mixedFaults twoUserState 2 (by decide)).1,
   (scheduled_quiz_per_recipient_isolation mixedFaults twoUserState 2 (by decide)).2.1⟩

/-- C3 counterexample: the claim requires a parse failure whenever fewer than
five usable (non-empty) lines are present, but the code tests
`len(content.split('\n')) < 5`, counting empty lines.  The text
`"English: X\n\n\n\n"` has one non-empty line yet five raw lines, and the
parser returns a success dictionary for it. -/
theorem parse_succeeds_with_few_usable_lines :
    nonEmptyLineCount shortUsable < 5 ∧
    (generate_quiz_question id shortUsable).isSome = true := by decide

/-- C3 amended: quiz-question parsing is a total function that returns `none`
(rather than raising) exactly when the raw text splits into fewer than five
newline-separated lines, empty lines included; and when a recipient's
completion parses to `none`, the broadcast tick opens no quiz session for that
recipient (its scheduled-quiz entry is left unchanged). -/
theorem generate_quiz_question_failure_behavior
    (shuffle : List Str → List Str) (content : Str) :
    (generate_quiz_question shuffle content = none ↔
      (splitNewlines content).length < 5) ∧
    (∀ (f : TickFaults) (s : BotState) (r : Nat),
      generate_quiz_question f.shuffle (f.genContent r) = none →
      (scheduled_quiz f s).scheduledQuizzes r = s.scheduledQuizzes r) := by
  constructor
  · unfold generate_quiz_question
    dsimp only
    split <;> simp_all
  · intro f s r _hg
    rw [scheduled_quiz_eq]

theorem generate_quiz_question_failure_behavior_witness :
    generate_quiz_question id "a\nb".data = none ∧
    (scheduled_quiz shortFaults tickStart).scheduledQuizzes 7 =
      tickStart.scheduledQuizzes 7 :=
  ⟨(generate_quiz_question_failure_behavior id "a\nb".data).1.mpr (by decide),
   (generate_quiz_question_failure_behavior id "a\nb".data).2 shortFaults tickStart 7
     (by decide)⟩

/-- C4: on the schematic five-line input with `English:` / `Correct
Ukrainian:` / `Incorrect Ukrainian:` labels, the parser (the
`openai_init.py` snapshot, whose label set this input uses) returns prompt
sentence `X`, correct answer `Y`, and options that are a permutation of
`{Y, A, B, C}` containing exactly one occurrence of `Y`, for every
permutation the shuffle may pick. -/
theorem generate_quiz_question_init_schematic
    (shuffle : List Str → List Str) (hperm : ∀ l, (shuffle l).Perm l) :
    (generate_quiz_question_init shuffle c4Input).english_sentence = "X".data ∧
    (generate_quiz_question_init shuffle c4Input).correct_translation = "Y".data ∧
    (generate_quiz_question_init shuffle c4Input).options.Perm
      ["Y".data, "A".data, "B".data, "C".data] ∧
    (generate_quiz_question_init shuffle c4Input).options.count "Y".data = 1 := by
  have h : generate_quiz_question_init shuffle c4Input =
      { english_sentence := "X".data, correct_translation := "Y".data,
        options := shuffle ["Y".data, "A".data, "B".data, "C".data] } := rfl
  rw [h]
  refine ⟨rfl, rfl, hperm _, ?_⟩
  show List.count "Y".data (shuffle ["Y".data, "A".data, "B".data, "C".data]) = 1
  have hc : List.count "Y".data (shuffle ["Y".data, "A".data, "B".data, "C".data]) =
      List.count "Y".data ["Y".data, "A".data, "B".data, "C".data] :=
    (hperm ["Y".data, "A".data, "B".data, "C".data]).countP_eq _
  rw [hc]
  decide

theorem generate_quiz_question_init_schematic_witness :
    (generate_quiz_question_init id c4Input).english_sentence = "X".data ∧
    (generate_quiz_question_init id c4Input).correct_translation = "Y".data ∧
    (generate_quiz_question_init id c4Input).options.count "Y".data = 1 :=
  ⟨(generate_quiz_question_init_schematic id (fun l => List.Perm.refl l)).1,
   (generate_quiz_question_init_schematic id (fun l => List.Perm.refl l)).2.1,
   (generate_quiz_question_init_schematic id (fun l => List.Perm.refl l)).2.2.2⟩

/-- C5: resolution semantics of `check_answer`.  With no pending per-user quiz
data the no-session outcome is returned and the state is untouched; with a
pending quiz the entry is always popped (back to idle) whatever the match
result, and the outcome reports the normalized-comparison match flag together
with the stored correct translation and the English prompt sentence. -/
theorem check_answer_resolution (s : BotState) (chat_id : Nat) (text : Str) :
    (s.userQuizData chat_id = none → check_answer chat_id text s = (.noSession, s)) ∧
    (∀ qd : QuizData, s.userQuizData chat_id = some qd →
      check_answer chat_id text s =
        (.answered (pyNormalize text == pyNormalize qd.correct_translation)
            qd.correct_translation qd.english_sentence,
          { s with userQuizData := setQuiz s.userQuizData chat_id none })) := by
  constructor
  · intro h
    unfold check_answer
    rw [h]
  · intro qd h
    unfold check_answer
    rw [h]

theorem check_answer_resolution_witness :
    check_answer 3 "x".data stateWithParis = (.noSession, stateWithParis) ∧
    (check_answer 7 "  paris ".data stateWithParis).1 =
      .answered true "Paris".data "Where is it".data := by
  constructor
  · exact (check_answer_resolution stateWithParis 3 "x".data).1 rfl
  · rw [(check_answer_resolution stateWithParis 7 "  paris ".data).2 parisQuiz rfl]
    decide

/-- C6: answer resolution compares the submitted answer with the stored
correct answer after stripping surrounding whitespace and lower-casing both
sides (`.strip().lower()` on each, bot.py lines 719 and 731). -/
theorem check_answer_normalization (s : BotState) (chat_id : Nat) (qd : QuizData)
    (text : Str) (h : s.userQuizData chat_id = some qd) :
    (check_answer chat_id text s).1 =
      .answered (pyLower (pyStrip text) == pyLower (pyStrip qd.correct_translation))
        qd.correct_translation qd.english_sentence := by
  unfold check_answer
  rw [h]
  rfl

/-- The instance required by the claim: submitted `"  paris "` matches the
stored correct answer `"Paris"`. -/
theorem check_answer_normalization_witness :
    (check_answer 7 "  paris ".data stateWithParis).1 =
      .answered true "Paris".data "Where is it".data := by
  rw [check_answer_normalization stateWithParis 7 parisQuiz "  paris ".data rfl]
  decide

/-- C7 counterexample: after `open(r, Q1)` then `open(r, Q2)` through the only
session-opening write the code has (the scheduled-quiz store), resolving `r`
with Q1's correct answer does not report a no-match result at all: it yields
the no-session outcome, because `check_answer` reads only the per-user
`user_data['quiz_data']`, which those opens never write. -/
theorem open_open_resolve_reports_no_session :
    (check_answer 7 "alpha".data
      (open_scheduled 7 quizQ2 (open_scheduled 7 quizQ1 tickStart))).1 =
      .noSession ∧
    (check_answer 7 "alpha".data
      (open_scheduled 7 quizQ2 (open_scheduled 7 quizQ1 tickStart))).1 ≠
      .answered false quizQ2.correct_translation quizQ2.english_sentence := by
  decide

/-- C7 amended: each recipient has at most one scheduled-quiz entry (the store
maps a recipient to at most one question) and opening is last-write-wins:
after `open(r, Q1)` then `open(r, Q2)` only Q2 is stored for `r` and no other
recipient's entry changes; resolving `r` afterwards, with any answer, reports
the no-session outcome (so in particular never a match on Q1), because the
answer handler reads the per-user quiz store that scheduled opens never
write. -/
theorem scheduled_open_last_write_wins (s : BotState) (r : Nat)
    (q1 q2 : QuizData) (ans : Str) (h : s.userQuizData r = none) :
    (open_scheduled r q2 (open_scheduled r q1 s)).scheduledQuizzes r = some q2 ∧
    (∀ x, x ≠ r →
      (open_scheduled r q2 (open_scheduled r q1 s)).scheduledQuizzes x =
        s.scheduledQuizzes x) ∧
    (check_answer r ans (open_scheduled r q2 (open_scheduled r q1 s))).1 =
      .noSession := by
  refine ⟨?_, ?_, ?_⟩
  · simp [open_scheduled, setQuiz]
  · intro x hx
    simp [open_scheduled, setQuiz, hx]
  · unfold check_answer open_scheduled
    dsimp only
    rw [h]

theorem scheduled_open_last_write_wins_witness :
    (open_scheduled 7 quizQ2 (open_scheduled 7 quizQ1 tickStart)).scheduledQuizzes 7 =
      some quizQ2 ∧
    (check_answer 7 "alpha".data
      (open_scheduled 7 quizQ2 (open_scheduled 7 quizQ1 tickStart))).1 =
      .noSession :=
  ⟨(scheduled_open_last_write_wins tickStart 7 quizQ1 quizQ2 "alpha".data rfl).1,
   (scheduled_open_last_write_wins tickStart 7 quizQ1 quizQ2 "alpha".data rfl).2.2⟩

/-- C8: from any reachable registry state (at most one entry per recipient),
subscribing twice leaves exactly one entry for the recipient, and
unsubscribing a non-member returns the not-subscribed outcome and leaves the
registry unchanged. -/
theorem subscription_registry_laws (chat_id : Nat) (subs : List Nat)
    (h : subs.count chat_id ≤ 1) :
    ((subscribe_quiz chat_id (subscribe_quiz chat_id subs).2).2.count chat_id = 1) ∧
    (chat_id ∉ subs →
      unsubscribe_quiz chat_id subs = (.notSubscribed, subs)) := by
  constructor
  · by_cases hm : chat_id ∈ subs
    · have h1 : 0 < subs.count chat_id := List.count_pos_iff.mpr hm
      simp only [subscribe_quiz, if_pos hm]
      omega
    · have h0 : subs.count chat_id = 0 := List.count_eq_zero.mpr hm
      simp only [subscribe_quiz, if_neg hm]
      have hm2 : chat_id ∈ subs ++ [chat_id] := by simp
      simp only [if_pos hm2]
      simp [List.count_append, h0]
  · intro hnm
    simp [unsubscribe_quiz, hnm]

theorem subscription_registry_laws_witness :
    ((subscribe_quiz 5 (subscribe_quiz 5 []).2).2.count 5 = 1) ∧
    unsubscribe_quiz 5 [] = (.notSubscribed, []) :=
  ⟨(subscription_registry_laws 5 [] (by decide)).1,
   (subscription_registry_laws 5 [] (by decide)).2 (by decide)⟩

/-- C9: the claim requires artifact-deletion failures to be logged without
changing the primary result — the discipline `speech_engine.py` (the guarded
`finally` unlinks of `convert_ogg_to_mp3` and `download_voice_as_ogg`) and
`handle_voice`'s `finally` do follow.  But in `send_text_and_voice_response`
the `os.remove` sits inside the main `try` (bot.py line 261): in an invocation
whose every stage succeeded (text and voice both delivered), a failing
deletion is caught by the `except`, which reports the invocation as failed by
sending the user the error apology — the deletion failure changes the
reported result, and the artifact is left on disk as well. -/
theorem send_text_and_voice_remove_failure_changes_result :
    (7, SentMsg.textOut) ∈
      (send_text_and_voice_response removeFailSendFaults 7 tickStart).messages ∧
    (7, SentMsg.voiceOut) ∈
      (send_text_and_voice_response removeFailSendFaults 7 tickStart).messages ∧
    (7, SentMsg.apology) ∈
      (send_text_and_voice_response removeFailSendFaults 7 tickStart).messages ∧
    (send_text_and_voice_response removeFailSendFaults 7 tickStart).artifacts.length = 1 := by
  decide

/-- C10: a quiz stored by the broadcast scheduler is never resolvable.  The
tick writes only `bot_data['scheduled_quizzes']` and never the per-user
`user_data['quiz_data']`, while `check_answer` reads only the latter; so a
recipient with no per-user quiz data before the tick still has none after it,
a subsequent answer takes the no-quiz-data branch, and no answer ever removes
a scheduled-quizzes entry. -/
theorem scheduled_quizzes_never_resolvable
    (f : TickFaults) (s : BotState) (r : Nat) (ans : Str)
    (h : s.userQuizData r = none) :
    (scheduled_quiz f s).userQuizData r = none ∧
    (check_answer r ans (scheduled_quiz f s)).1 = .noSession ∧
    (∀ (s2 : BotState) (t : Str),
      (check_answer r t s2).2.scheduledQuizzes = s2.scheduledQuizzes) := by
  have hu : (scheduled_quiz f s).userQuizData r = none := by
    rw [scheduled_quiz_eq]
    exact h
  refine ⟨hu, ?_, ?_⟩
  · unfold check_answer
    rw [hu]
  · intro s2 t
    unfold check_answer
    cases s2.userQuizData r <;> rfl

theorem scheduled_quizzes_never_resolvable_witness :
    (scheduled_quiz mixedFaults twoUserState).userQuizData 2 = none ∧
    (check_answer 2 "Pryvit".data (scheduled_quiz mixedFaults twoUserState)).1 =
      .noSession :=
  ⟨(scheduled_quizzes_never_resolvable mixedFaults twoUserState 2 "Pryvit".data rfl).1,
   (scheduled_quizzes_never_resolvable mixedFaults twoUserState 2 "Pryvit".data rfl).2.1⟩

end EngBot
